import Mathlib

/-!
Shallow embedding of the movies.myx.is client (App.tsx, services/geminiService.ts,
types.ts).  The React component's `useState` fields become a record `AppModel`;
each event handler becomes a pure function on that record.  Asynchronous calls
are split into a synchronous prefix (`...Begin`) and a resolution function that
takes the outcome of the awaited calls as data (`...Resolve`), mirroring the
single-threaded event-loop semantics: between suspension points the handler
body runs atomically.  JavaScript numbers are modelled by `JSNum` (a rational
for finite values plus the infinities and NaN); the JS builtins used by the
source (`parseFloat`, `String.prototype.includes`, `||` on strings,
`Array.prototype.split` access) are modelled below.
-/

/-- The `AppState` enum from types.ts. -/
inductive AppState where
  | KEY_SELECTION
  | UPLOAD
  | CONFIGURE
  | ANALYZING
  | STORYBOARD
  | GENERATING
  | RESULT
deriving DecidableEq, Repr

/-- The `Genre` string-literal union from types.ts. -/
inductive Genre where
  | SciFi | Comedy | Drama | Horror | Action | Romance
deriving DecidableEq, Repr

/-- The `Mood` string-literal union from types.ts. -/
inductive Mood where
  | Uplifting | Suspenseful | Heartwarming | Dark | Epic | Noir
deriving DecidableEq, Repr

/-- The `Archetype` string-literal union from types.ts. -/
inductive Archetype where
  | ReluctantHero | WiseMentor | CunningVillain | ComicRelief | FemmeFatale | TheOutcast
deriving DecidableEq, Repr

/-- The `CameraMovement` string-literal union from types.ts. -/
inductive CameraMovement where
  | Static | CinematicPushIn | SlowPanLeft | SlowPanRight | HandheldShake | DroneFlyover | ZoomOut
deriving DecidableEq, Repr

/-- A JavaScript number: a finite rational, an infinity, or NaN.  Finite
values are modelled exactly (the claims under study concern NaN coercion,
not float rounding). -/
inductive JSNum where
  | num (q : ℚ)
  | inf
  | negInf
  | nan
deriving DecidableEq, Repr

/-- The JS `isNaN` test on a `JSNum`. -/
def JSNum.isNaN : JSNum → Bool
  | .nan => true
  | _ => false

/-- The `Subtitle` interface from types.ts. -/
structure Subtitle where
  startTime : JSNum
  endTime : JSNum
  text : String
deriving DecidableEq, Repr

/-- The `GenerationConfig` interface from types.ts. -/
structure GenerationConfig where
  genre : Genre
  mood : Mood
  archetypes : List Archetype
  camera : CameraMovement
  includeSubtitles : Bool
deriving DecidableEq, Repr

/-- The `MovieScene` interface from types.ts. -/
structure MovieScene where
  title : String
  description : String
  visualPrompt : String
  genre : String
  mood : String
  characters : List String
  subtitles : Option (List Subtitle) := none
  storyboardImage : Option String := none
deriving DecidableEq, Repr

/-- The `useState` fields of the `App` component in App.tsx, gathered into one
record (the component instance's state at one instant of the event loop). -/
structure AppModel where
  state : AppState
  error : Option String
  loadingMsg : String
  sceneInfo : Option MovieScene
  videoUrl : Option String
  videoLoaded : Bool
  currentTime : JSNum
  showSubtitles : Bool
  pdfBase64 : Option String
  config : GenerationConfig
deriving DecidableEq, Repr

/-- Boolean test that `pat` is a prefix of `s` (character lists). -/
def listPrefixEq : List Char → List Char → Bool
  | [], _ => true
  | _ :: _, [] => false
  | a :: as, b :: bs => a = b && listPrefixEq as bs

/-- Boolean test that `pat` occurs as a contiguous run inside `s`. -/
def listInfixOf (pat : List Char) : List Char → Bool
  | [] => listPrefixEq pat []
  | c :: rest => listPrefixEq pat (c :: rest) || listInfixOf pat rest

/-- Model of JS `s.includes(pat)`. -/
def strIncludes (s pat : String) : Bool :=
  listInfixOf pat.data s.data

/-- Model of the JS `a || b` idiom on an optional string: `undefined` and the
empty string are falsy, so both select the fallback. -/
def jsOrElse (msg : Option String) (fallback : String) : String :=
  match msg with
  | some s => if s = "" then fallback else s
  | none => fallback

/-- Whitespace characters skipped by JS `parseFloat`. -/
def isJsWhitespace (c : Char) : Bool :=
  c = ' ' || c = '\t' || c = '\n' || c = '\r' || c = '\x0b' || c = '\x0c'

/-- Numeric value of a run of decimal digits. -/
def digitsVal (ds : List Char) : Nat :=
  ds.foldl (fun acc c => acc * 10 + (c.toNat - 48)) 0

/-- Exponent sign-and-digits part after an `e`/`E` marker; an `e` not followed
by digits contributes exponent 0, as in JS (the marker is then not part of the
parsed prefix, which makes no difference to the value). -/
def parseExpAux (rest : List Char) : Int :=
  match rest with
  | '+' :: ds =>
    let digs := ds.takeWhile Char.isDigit
    if digs = [] then 0 else (digitsVal digs : Int)
  | '-' :: ds =>
    let digs := ds.takeWhile Char.isDigit
    if digs = [] then 0 else -(digitsVal digs : Int)
  | ds =>
    let digs := ds.takeWhile Char.isDigit
    if digs = [] then 0 else (digitsVal digs : Int)

/-- Optional exponent part of a JS decimal literal. -/
def parseExp : List Char → Int
  | 'e' :: rest => parseExpAux rest
  | 'E' :: rest => parseExpAux rest
  | _ => 0

/-- Scale a mantissa by a signed power of ten. -/
def applyExp (m : ℚ) (e : Int) : ℚ :=
  if 0 ≤ e then m * (10 : ℚ) ^ e.toNat else m / (10 : ℚ) ^ (-e).toNat

/-- Model of the JS builtin `parseFloat`: skip leading whitespace, take an
optional sign, then the longest prefix that is `Infinity` or a decimal literal
(digits, optional fraction, optional exponent); if no such prefix exists the
result is NaN. -/
def jsParseFloat (s : String) : JSNum :=
  let cs := s.data.dropWhile isJsWhitespace
  let signNeg : Bool := match cs with | '-' :: _ => true | _ => false
  let cs1 : List Char := match cs with
    | '+' :: r => r
    | '-' :: r => r
    | _ => cs
  if listPrefixEq "Infinity".data cs1 then
    if signNeg then JSNum.negInf else JSNum.inf
  else
    let intPart := cs1.takeWhile Char.isDigit
    let r1 := cs1.dropWhile Char.isDigit
    let fracAndRest : List Char × List Char :=
      match r1 with
      | '.' :: r => (r.takeWhile Char.isDigit, r.dropWhile Char.isDigit)
      | _ => ([], r1)
    let fracPart := fracAndRest.1
    if intPart = [] && fracPart = [] then JSNum.nan
    else
      let mantissa : ℚ :=
        (digitsVal intPart : ℚ) + (digitsVal fracPart : ℚ) / (10 : ℚ) ^ fracPart.length
      let v := applyExp mantissa (parseExp fracAndRest.2)
      JSNum.num (if signNeg then -v else v)

/-- A file offered to the upload input: its MIME `type` string and, when read
with `readAsDataURL`, the resulting data URL. -/
structure JSFile where
  type : String
deriving DecidableEq, Repr

/-- Outcome of the asynchronous `FileReader` read in `handleFileUpload`:
`onload` with a data-URL string, the unreachable-in-practice `catch` branch of
the `onload` body, or `onerror`. -/
inductive ReadOutcome where
  | success (dataUrl : String)
  | processingFailure
  | readFailure
deriving DecidableEq, Repr

/-- `handleFileUpload` from App.tsx.  The handler receives the (optional)
selected file; the subsequent `FileReader` callbacks are folded in via the
`ReadOutcome` argument, which is only consulted when the reader is actually
started (MIME type exactly `application/pdf`).  On `onload` the payload stored
is `result.split(',')[1]`, modelled by `(dataUrl.splitOn ",")[1]?`;
`onload` then moves the phase to CONFIGURE and clears the error, and the
`finally` clause clears the loading message. -/
def handleFileUpload (m : AppModel) (file : Option JSFile) (read : ReadOutcome) : AppModel :=
  match file with
  | none => m
  | some f =>
    if f.type ≠ "application/pdf" then
      { m with error := some "Please upload a valid PDF script." }
    else
      match read with
      | .success dataUrl =>
        { m with pdfBase64 := (dataUrl.splitOn ",")[1]?,
                 state := AppState.CONFIGURE,
                 error := none,
                 loadingMsg := "" }
      | .processingFailure =>
        { m with error := some "Error processing script. Please try another file.",
                 loadingMsg := "" }
      | .readFailure =>
        { m with error := some "Failed to read the file. Please try again.",
                 loadingMsg := "" }

/-- The `disabled` condition of the INITIALIZE STORYBOARD button in App.tsx:
`config.archetypes.length === 0`. -/
def analysisTriggerDisabled (c : GenerationConfig) : Bool :=
  c.archetypes.length == 0

/-- Synchronous prefix of `startAnalysis` (App.tsx): guard on a stored PDF
payload, then set the loading message, enter ANALYZING and clear the error. -/
def startAnalysisBegin (m : AppModel) : AppModel :=
  match m.pdfBase64 with
  | none => m
  | some _ =>
    { m with loadingMsg := "Analyzing Narrative Beats...",
             state := AppState.ANALYZING,
             error := none }

/-- Clicking the INITIALIZE STORYBOARD button on the CONFIGURE screen: a
disabled button delivers no click, otherwise `startAnalysis` runs. -/
def storyboardButtonClick (m : AppModel) : AppModel :=
  if analysisTriggerDisabled m.config then m else startAnalysisBegin m

/-- Outcome of the awaited calls inside `startAnalysis`: both succeed, the
`analyzeScript` call rejects (with an optional `message`), or the
`generateStoryboard` call rejects after the analysis result was stored. -/
inductive AnalysisOutcome where
  | success (analysis : MovieScene) (storyboard : String)
  | analyzeError (msg : Option String)
  | storyboardError (analysis : MovieScene) (msg : Option String)
deriving DecidableEq, Repr

/-- The error text shown when the credential-expiry substring is detected. -/
def sessionExpiredMsg : String :=
  "Your API key session expired. Please re-select your project."

/-- The substring sniffed out of a rejection to detect credential expiry. -/
def credentialExpirySignal : String :=
  "Requested entity was not found"

/-- The `catch` block of `startAnalysis`: `apiErr.message?.includes(...)`
routes to KEY_SELECTION with the session-expired text, otherwise the message
(or a fallback) is shown and the phase reverts to CONFIGURE. -/
def startAnalysisCatch (m : AppModel) (msg : Option String) : AppModel :=
  if strIncludes (msg.getD "") credentialExpirySignal then
    { m with state := AppState.KEY_SELECTION, error := some sessionExpiredMsg }
  else
    { m with error := some (jsOrElse msg "A production error occurred. Please try again."),
             state := AppState.CONFIGURE }

/-- Resolution of `startAnalysis` after its awaited calls: on success the
analysis is stored, the loading message switches to the storyboard step, the
storyboard image is attached to the stored scene and the phase becomes
STORYBOARD; a rejection runs the `catch` block (after the analysis was stored
when the storyboard call is the one that failed). -/
def startAnalysisResolve (m : AppModel) (out : AnalysisOutcome) : AppModel :=
  match out with
  | .success analysis storyboard =>
    let m1 := { m with sceneInfo := some analysis }
    let m2 := { m1 with loadingMsg := "Sketching Storyboard..." }
    let m3 := { m2 with sceneInfo := some { analysis with storyboardImage := some storyboard } }
    { m3 with state := AppState.STORYBOARD }
  | .analyzeError msg => startAnalysisCatch m msg
  | .storyboardError analysis msg =>
    startAnalysisCatch
      { m with sceneInfo := some analysis, loadingMsg := "Sketching Storyboard..." } msg

/-- Synchronous prefix of `startVideoGeneration` (App.tsx): guard on a stored
scene, then set the loading message, enter GENERATING, clear the loaded flag. -/
def startVideoGenerationBegin (m : AppModel) : AppModel :=
  match m.sceneInfo with
  | none => m
  | some _ =>
    { m with loadingMsg := "Rendering Cinematic Vision...",
             state := AppState.GENERATING,
             videoLoaded := false }

/-- Outcome of the awaited `generateVideo` call in `startVideoGeneration`. -/
inductive VideoOutcome where
  | success (url : String)
  | failure (msg : Option String)
deriving DecidableEq, Repr

/-- Resolution of `startVideoGeneration`: success stores the video reference
and enters RESULT; a rejection shows the message (or a fallback) and reverts
the phase to STORYBOARD. -/
def startVideoGenerationResolve (m : AppModel) (out : VideoOutcome) : AppModel :=
  match out with
  | .success url => { m with videoUrl := some url, state := AppState.RESULT }
  | .failure msg =>
    { m with error := some (jsOrElse msg "Video generation failed."),
             state := AppState.STORYBOARD }

/-- `toggleArchetype` from App.tsx: remove the value when present (JS
`filter(a => a !== arch)`), otherwise append it. -/
def toggleArchetype (c : GenerationConfig) (arch : Archetype) : GenerationConfig :=
  { c with archetypes :=
      if c.archetypes.contains arch then
        c.archetypes.filter (fun a => a ≠ arch)
      else
        c.archetypes ++ [arch] }

/-- `reset` from App.tsx. -/
def reset (m : AppModel) : AppModel :=
  { m with state := AppState.UPLOAD,
           videoUrl := none,
           sceneInfo := none,
           pdfBase64 := none,
           videoLoaded := false,
           error := none }

/-- The two editable time fields of a subtitle. -/
inductive TimeField where
  | startTime
  | endTime
deriving DecidableEq, Repr

/-- Computed-key write `{ ...sub, [field]: v }` for a time field. -/
def setSubtitleField (s : Subtitle) (f : TimeField) (v : JSNum) : Subtitle :=
  match f with
  | .startTime => { s with startTime := v }
  | .endTime => { s with endTime := v }

/-- Read back a time field. -/
def subtitleField (s : Subtitle) : TimeField → JSNum
  | .startTime => s.startTime
  | .endTime => s.endTime

/-- `updateSubtitleTime` from App.tsx: guard on a stored scene, copy the
subtitle array (`sceneInfo.subtitles || []`), parse the raw string with
`parseFloat`, store `isNaN(val) ? 0 : val` into the addressed field.  The UI
only calls this with indices produced by enumerating the subtitle array, so
the element write is modelled in-bounds (`List.set`). -/
def updateSubtitleTime (m : AppModel) (index : Nat) (f : TimeField) (value : String) : AppModel :=
  match m.sceneInfo with
  | none => m
  | some scene =>
    let subs := scene.subtitles.getD []
    let val := jsParseFloat value
    let stored := if val.isNaN then JSNum.num 0 else val
    let subs2 :=
      match subs[index]? with
      | some s => subs.set index (setSubtitleField s f stored)
      | none => subs
    { m with sceneInfo := some { scene with subtitles := some subs2 } }

/-- A JSON-schema fragment as built by `analyzeScript` (geminiService.ts):
string, number, array-of, or object with named properties and a `required`
name list. -/
inductive RSchema where
  | str
  | num
  | arr (items : RSchema)
  | obj (properties : List (String × RSchema)) (required : List String)

/-- Property names of an object schema. -/
def RSchema.propNames : RSchema → List String
  | .obj props _ => props.map Prod.fst
  | _ => []

/-- Required-field names of an object schema. -/
def RSchema.requiredOf : RSchema → List String
  | .obj _ req => req
  | _ => []

/-- The `responseSchema` value built by `analyzeScript` (geminiService.ts):
the base object schema, to which — exactly when `config.includeSubtitles` —
a `subtitles` array-of-objects property is added and `"subtitles"` is pushed
onto the `required` list. -/
def analyzeResponseSchema (config : GenerationConfig) : RSchema :=
  let baseProps : List (String × RSchema) :=
    [("title", .str), ("description", .str), ("visualPrompt", .str),
     ("genre", .str), ("mood", .str), ("characters", .arr .str)]
  let baseReq : List String :=
    ["title", "description", "visualPrompt", "genre", "mood", "characters"]
  if config.includeSubtitles then
    .obj
      (baseProps ++
        [("subtitles",
          .arr (.obj [("startTime", .num), ("endTime", .num), ("text", .str)]
            ["startTime", "endTime", "text"]))])
      (baseReq ++ ["subtitles"])
  else
    .obj baseProps baseReq

/-- One observed status of the long-running video job: the `done` flag and
the flattened `response?.generatedVideos?.[0]?.video?.uri`. -/
structure VideoOperation where
  done : Bool
  uri : Option String
deriving DecidableEq, Repr

/-- The fixed message written to `onProgress` before the job is started. -/
def initialEngineMsg : String := "Initializing cinematic engine..."

/-- The fixed progress-message list of `generateVideo` (geminiService.ts). -/
def progressMessages : List String :=
  ["Drafting storyboards...",
   "Setting up virtual lighting...",
   "Capturing initial frames...",
   "Refining textures...",
   "Applying cinematic color grade...",
   "Finalizing render..."]

/-- The `while (!operation.done)` loop of `generateVideo`: on a not-done
status, emit `progressMessages[msgIndex % length]`, bump the index, wait, and
poll the next status.  The successive poll results are supplied as a list;
returns the emitted messages in order and the final (done) status, or `none`
when the supplied statuses run out before the job reports done (the real loop
would keep polling forever). -/
def pollLoop : Nat → VideoOperation → List VideoOperation → List String × Option VideoOperation
  | msgIndex, op, [] =>
    if op.done then ([], some op)
    else ([progressMessages.getD (msgIndex % progressMessages.length) ""], none)
  | msgIndex, op, next :: rest2 =>
    if op.done then ([], some op)
    else
      let r := pollLoop (msgIndex + 1) next rest2
      (progressMessages.getD (msgIndex % progressMessages.length) "" :: r.1, r.2)

/-- Overall result of a `generateVideo` run. -/
inductive VideoRunResult where
  | resolved (url : String)
  | failed (msg : String)
  | diverged
deriving DecidableEq, Repr

/-- `generateVideo` from geminiService.ts, as a function of the job's status
trace: emit the initialization message, obtain the first status from
`generateVideos`, run the polling loop over the later statuses from
`getVideosOperation`, then extract the download link (`!downloadLink`, i.e.
a missing or empty string, rejects) and append the access key. -/
def generateVideoModel (apiKey : String) (firstOp : VideoOperation)
    (laterOps : List VideoOperation) : List String × VideoRunResult :=
  let r := pollLoop 0 firstOp laterOps
  let trace := initialEngineMsg :: r.1
  match r.2 with
  | none => (trace, .diverged)
  | some op =>
    match op.uri with
    | none => (trace, .failed "Video generation failed")
    | some link =>
      if link = "" then (trace, .failed "Video generation failed")
      else (trace, .resolved (link ++ "&key=" ++ apiKey))

/-- Concrete configuration fixture: two archetypes selected, subtitles on. -/
def cfgTwo : GenerationConfig :=
  ⟨Genre.SciFi, Mood.Epic, [Archetype.ReluctantHero, Archetype.WiseMentor],
   CameraMovement.CinematicPushIn, true⟩

/-- Concrete configuration fixture: no archetype selected. -/
def cfgEmpty : GenerationConfig :=
  ⟨Genre.SciFi, Mood.Epic, [], CameraMovement.CinematicPushIn, true⟩

/-- Concrete configuration fixture: subtitles off. -/
def cfgNoSubs : GenerationConfig :=
  ⟨Genre.SciFi, Mood.Epic, [Archetype.ReluctantHero], CameraMovement.Static, false⟩

/-- Concrete scene fixture with a storyboard image and one subtitle. -/
def sceneEx : MovieScene :=
  ⟨"Title", "Desc", "Prompt", "Sci-fi", "Epic", ["Hero"],
   some [⟨JSNum.num 0, JSNum.num 2, "hi"⟩], some "img"⟩

/-- Concrete app-model fixture on the CONFIGURE screen, no scene yet. -/
def modelConfigure : AppModel :=
  ⟨AppState.CONFIGURE, none, "", none, none, false, JSNum.num 0, true, some "payload", cfgEmpty⟩

/-- Concrete app-model fixture on the STORYBOARD screen holding `sceneEx`. -/
def modelStoryboard : AppModel :=
  ⟨AppState.STORYBOARD, none, "", some sceneEx, none, false, JSNum.num 0, true, some "payload", cfgTwo⟩

/-- Concrete app-model fixture on the UPLOAD screen. -/
def modelUpload : AppModel :=
  ⟨AppState.UPLOAD, none, "", none, none, false, JSNum.num 0, true, none, cfgTwo⟩

/-- Writing a time field and reading the same field back gives the written value. -/
theorem subtitleField_set (s : Subtitle) (f : TimeField) (v : JSNum) :
    subtitleField (setSubtitleField s f v) f = v := by
  cases f <;> rfl

/-- The `isNaN(val) ? 0 : val` coercion never produces NaN. -/
theorem coerced_not_nan (v : JSNum) : (if v.isNaN then JSNum.num 0 else v) ≠ JSNum.nan := by
  cases v <;> simp [JSNum.isNaN]

/-- C1: for every model on the CONFIGURE screen whose archetype selection is
empty — whatever the genre, mood, camera and subtitle flag are — the
INITIALIZE STORYBOARD trigger is disabled, a click is a no-op, and the phase
stays CONFIGURE, so the CONFIGURE→ANALYZING transition does not fire. -/
theorem startAnalysis_blocked_on_empty_archetypes (m : AppModel)
    (hempty : m.config.archetypes = []) (hphase : m.state = AppState.CONFIGURE) :
    analysisTriggerDisabled m.config = true ∧
    storyboardButtonClick m = m ∧
    (storyboardButtonClick m).state = AppState.CONFIGURE := by
  have hd : analysisTriggerDisabled m.config = true := by
    simp [analysisTriggerDisabled, hempty]
  refine ⟨hd, ?_, ?_⟩ <;> simp [storyboardButtonClick, hd, hphase]

/-- C1 witness: the theorem applied to a concrete CONFIGURE model with an
empty archetype selection. -/
theorem startAnalysis_blocked_on_empty_archetypes_witness :
    analysisTriggerDisabled modelConfigure.config = true ∧
    storyboardButtonClick modelConfigure = modelConfigure ∧
    (storyboardButtonClick modelConfigure).state = AppState.CONFIGURE :=
  startAnalysis_blocked_on_empty_archetypes modelConfigure rfl rfl

/-- C2: on a job whose status reads not-done for the first three polls and
done (with a download link) on the fourth, `generateVideo` emits, after the
fixed initialization message, exactly the three progress messages at indices
0, 1 and 2 of the fixed list (indices taken modulo the list length); exactly
three of the emitted messages are drawn from that list; and the call resolves
with the fourth poll's download link with the access key appended. -/
theorem generateVideo_four_polls (u apiKey : String) (hu : u ≠ "") :
    (generateVideoModel apiKey ⟨false, none⟩
        [⟨false, none⟩, ⟨false, none⟩, ⟨true, some u⟩]).1 =
      [initialEngineMsg,
       progressMessages.getD (0 % progressMessages.length) "",
       progressMessages.getD (1 % progressMessages.length) "",
       progressMessages.getD (2 % progressMessages.length) ""] ∧
    ((generateVideoModel apiKey ⟨false, none⟩
        [⟨false, none⟩, ⟨false, none⟩, ⟨true, some u⟩]).1.filter
          (fun s => progressMessages.contains s)).length = 3 ∧
    (generateVideoModel apiKey ⟨false, none⟩
        [⟨false, none⟩, ⟨false, none⟩, ⟨true, some u⟩]).2 =
      VideoRunResult.resolved (u ++ "&key=" ++ apiKey) := by
  refine ⟨?_, ?_, ?_⟩ <;>
    simp [generateVideoModel, pollLoop, initialEngineMsg, progressMessages, hu]

/-- C2 witness: the theorem applied to a concrete link and key. -/
theorem generateVideo_four_polls_witness :
    (generateVideoModel "KEY" ⟨false, none⟩
        [⟨false, none⟩, ⟨false, none⟩, ⟨true, some "https://video.example/v1"⟩]).1 =
      [initialEngineMsg,
       progressMessages.getD (0 % progressMessages.length) "",
       progressMessages.getD (1 % progressMessages.length) "",
       progressMessages.getD (2 % progressMessages.length) ""] ∧
    ((generateVideoModel "KEY" ⟨false, none⟩
        [⟨false, none⟩, ⟨false, none⟩, ⟨true, some "https://video.example/v1"⟩]).1.filter
          (fun s => progressMessages.contains s)).length = 3 ∧
    (generateVideoModel "KEY" ⟨false, none⟩
        [⟨false, none⟩, ⟨false, none⟩, ⟨true, some "https://video.example/v1"⟩]).2 =
      VideoRunResult.resolved ("https://video.example/v1" ++ "&key=" ++ "KEY") :=
  generateVideo_four_polls "https://video.example/v1" "KEY" (by decide)

/-- C3: the structured-output schema built by `analyzeScript` lists a
`subtitles` property and marks it required exactly when `includeSubtitles`
is set; with the flag off, `subtitles` appears neither among the properties
nor in the required set. -/
theorem analyzeScript_schema_subtitles (c : GenerationConfig) :
    (c.includeSubtitles = true →
      "subtitles" ∈ (analyzeResponseSchema c).propNames ∧
      "subtitles" ∈ (analyzeResponseSchema c).requiredOf) ∧
    (c.includeSubtitles = false →
      "subtitles" ∉ (analyzeResponseSchema c).propNames ∧
      "subtitles" ∉ (analyzeResponseSchema c).requiredOf) := by
  obtain ⟨g, mo, ar, ca, inc⟩ := c
  cases inc <;> constructor <;> intro h <;>
    simp_all [analyzeResponseSchema, RSchema.propNames, RSchema.requiredOf]

/-- C3 witness: the theorem applied to one configuration with subtitles on
and one with subtitles off. -/
theorem analyzeScript_schema_subtitles_witness :
    ("subtitles" ∈ (analyzeResponseSchema cfgTwo).propNames ∧
     "subtitles" ∈ (analyzeResponseSchema cfgTwo).requiredOf) ∧
    ("subtitles" ∉ (analyzeResponseSchema cfgNoSubs).propNames ∧
     "subtitles" ∉ (analyzeResponseSchema cfgNoSubs).requiredOf) :=
  ⟨(analyzeScript_schema_subtitles cfgTwo).1 rfl,
   (analyzeScript_schema_subtitles cfgNoSubs).2 rfl⟩

/-- C4: when the analysis call started from CONFIGURE (with a stored PDF and
no scene yet) rejects with a message containing the credential-expiry
substring, the phase becomes KEY_SELECTION, the error is the session-expired
text, and `sceneInfo` remains `null`. -/
theorem startAnalysis_credential_expiry (m : AppModel) (p msg : String)
    (hpdf : m.pdfBase64 = some p) (hscene : m.sceneInfo = none)
    (hsig : strIncludes msg credentialExpirySignal = true) :
    (startAnalysisResolve (startAnalysisBegin m)
        (AnalysisOutcome.analyzeError (some msg))).state = AppState.KEY_SELECTION ∧
    (startAnalysisResolve (startAnalysisBegin m)
        (AnalysisOutcome.analyzeError (some msg))).error = some sessionExpiredMsg ∧
    (startAnalysisResolve (startAnalysisBegin m)
        (AnalysisOutcome.analyzeError (some msg))).sceneInfo = none := by
  refine ⟨?_, ?_, ?_⟩ <;>
    simp [startAnalysisBegin, hpdf, startAnalysisResolve, startAnalysisCatch, hsig, hscene]

/-- C4 witness: the theorem applied to a concrete CONFIGURE model and the
exact backend message. -/
theorem startAnalysis_credential_expiry_witness :
    (startAnalysisResolve (startAnalysisBegin modelConfigure)
        (AnalysisOutcome.analyzeError (some "Requested entity was not found"))).state
      = AppState.KEY_SELECTION ∧
    (startAnalysisResolve (startAnalysisBegin modelConfigure)
        (AnalysisOutcome.analyzeError (some "Requested entity was not found"))).error
      = some sessionExpiredMsg ∧
    (startAnalysisResolve (startAnalysisBegin modelConfigure)
        (AnalysisOutcome.analyzeError (some "Requested entity was not found"))).sceneInfo
      = none :=
  startAnalysis_credential_expiry modelConfigure "payload"
    "Requested entity was not found" rfl rfl (by decide)

/-- C5: when the video render started from STORYBOARD rejects, the phase
reverts to STORYBOARD, an error message is set (the rejection text or the
fixed fallback), and the stored scene — storyboard image and subtitles
included — is unchanged. -/
theorem startVideoGeneration_failure_reverts (m : AppModel) (scene : MovieScene)
    (msg : Option String)
    (hscene : m.sceneInfo = some scene) (_hphase : m.state = AppState.STORYBOARD) :
    (startVideoGenerationResolve (startVideoGenerationBegin m)
        (VideoOutcome.failure msg)).state = AppState.STORYBOARD ∧
    (startVideoGenerationResolve (startVideoGenerationBegin m)
        (VideoOutcome.failure msg)).error = some (jsOrElse msg "Video generation failed.") ∧
    (startVideoGenerationResolve (startVideoGenerationBegin m)
        (VideoOutcome.failure msg)).sceneInfo = some scene ∧
    ((startVideoGenerationResolve (startVideoGenerationBegin m)
        (VideoOutcome.failure msg)).sceneInfo.map MovieScene.storyboardImage)
      = some scene.storyboardImage ∧
    ((startVideoGenerationResolve (startVideoGenerationBegin m)
        (VideoOutcome.failure msg)).sceneInfo.map MovieScene.subtitles)
      = some scene.subtitles := by
  refine ⟨?_, ?_, ?_, ?_, ?_⟩ <;>
    simp [startVideoGenerationBegin, hscene, startVideoGenerationResolve]

/-- C5 witness: the theorem applied to a concrete STORYBOARD model and a
concrete rejection message. -/
theorem startVideoGeneration_failure_reverts_witness :
    (startVideoGenerationResolve (startVideoGenerationBegin modelStoryboard)
        (VideoOutcome.failure (some "render exploded"))).state = AppState.STORYBOARD ∧
    (startVideoGenerationResolve (startVideoGenerationBegin modelStoryboard)
        (VideoOutcome.failure (some "render exploded"))).error
      = some (jsOrElse (some "render exploded") "Video generation failed.") ∧
    (startVideoGenerationResolve (startVideoGenerationBegin modelStoryboard)
        (VideoOutcome.failure (some "render exploded"))).sceneInfo = some sceneEx ∧
    ((startVideoGenerationResolve (startVideoGenerationBegin modelStoryboard)
        (VideoOutcome.failure (some "render exploded"))).sceneInfo.map MovieScene.storyboardImage)
      = some sceneEx.storyboardImage ∧
    ((startVideoGenerationResolve (startVideoGenerationBegin modelStoryboard)
        (VideoOutcome.failure (some "render exploded"))).sceneInfo.map MovieScene.subtitles)
      = some sceneEx.subtitles :=
  startVideoGeneration_failure_reverts modelStoryboard sceneEx (some "render exploded") rfl rfl

/-- C6: from the UPLOAD screen, the UPLOAD→CONFIGURE transition fires exactly
when the offered file's MIME type is the string `application/pdf` and the
read succeeds, in which case the payload after the first comma of the data
URL is stored; any other MIME type leaves the phase at UPLOAD and sets the
input-error message. -/
theorem handleFileUpload_pdf_gate (m : AppModel) (f : JSFile) (r : ReadOutcome)
    (hphase : m.state = AppState.UPLOAD) :
    ((handleFileUpload m (some f) r).state = AppState.CONFIGURE ↔
      (f.type = "application/pdf" ∧ ∃ d, r = ReadOutcome.success d)) ∧
    (f.type ≠ "application/pdf" →
      (handleFileUpload m (some f) r).state = AppState.UPLOAD ∧
      (handleFileUpload m (some f) r).error = some "Please upload a valid PDF script.") ∧
    (∀ d : String, f.type = "application/pdf" → r = ReadOutcome.success d →
      (handleFileUpload m (some f) r).pdfBase64 = (d.splitOn ",")[1]?) := by
  by_cases hf : f.type = "application/pdf" <;>
    cases r <;> simp [handleFileUpload, hf, hphase]

/-- C6 witness: the theorem applied to a concrete UPLOAD model, a PDF-typed
file and a successful read. -/
theorem handleFileUpload_pdf_gate_witness :
    ((handleFileUpload modelUpload (some ⟨"application/pdf"⟩)
        (ReadOutcome.success "data:application/pdf;base64,QUJD")).state = AppState.CONFIGURE ↔
      ((JSFile.mk "application/pdf").type = "application/pdf" ∧
        ∃ d, ReadOutcome.success "data:application/pdf;base64,QUJD" = ReadOutcome.success d)) ∧
    ((JSFile.mk "application/pdf").type ≠ "application/pdf" →
      (handleFileUpload modelUpload (some ⟨"application/pdf"⟩)
        (ReadOutcome.success "data:application/pdf;base64,QUJD")).state = AppState.UPLOAD ∧
      (handleFileUpload modelUpload (some ⟨"application/pdf"⟩)
        (ReadOutcome.success "data:application/pdf;base64,QUJD")).error
          = some "Please upload a valid PDF script.") ∧
    (∀ d : String, (JSFile.mk "application/pdf").type = "application/pdf" →
      ReadOutcome.success "data:application/pdf;base64,QUJD" = ReadOutcome.success d →
      (handleFileUpload modelUpload (some ⟨"application/pdf"⟩)
        (ReadOutcome.success "data:application/pdf;base64,QUJD")).pdfBase64
          = (d.splitOn ",")[1]?) :=
  handleFileUpload_pdf_gate modelUpload ⟨"application/pdf"⟩
    (ReadOutcome.success "data:application/pdf;base64,QUJD") rfl

/-- C7 counterexample: toggling `ReluctantHero` twice on the selection
`[ReluctantHero, WiseMentor]` yields `[WiseMentor, ReluctantHero]` — the same
set but not the original order, so the double toggle does not return the
archetype collection to its original value. -/
theorem toggleArchetype_twice_order_counterexample :
    ¬ (toggleArchetype (toggleArchetype cfgTwo Archetype.ReluctantHero)
        Archetype.ReluctantHero = cfgTwo) := by
  decide

/-- C7 (amended): toggling `x` twice restores the selection as a set —
membership of every archetype is unchanged — and when `x` was not selected
the list is restored exactly, value and order; when `x` was selected in a
non-final position it is re-appended at the end, so the order can change. -/
theorem toggleArchetype_twice_set (c : GenerationConfig) (x a : Archetype) :
    (a ∈ (toggleArchetype (toggleArchetype c x) x).archetypes ↔ a ∈ c.archetypes) ∧
    (x ∉ c.archetypes → toggleArchetype (toggleArchetype c x) x = c) := by
  obtain ⟨g, mo, l, ca, inc⟩ := c
  by_cases hx : x ∈ l
  · constructor
    · simp only [toggleArchetype, List.contains_eq_any_beq]
      simp [hx, List.mem_filter]
      constructor
      · rintro (⟨ha, _⟩ | rfl)
        · exact ha
        · exact hx
      · intro ha
        by_cases hax : a = x
        · exact Or.inr hax
        · exact Or.inl ⟨ha, hax⟩
    · intro h
      exact absurd hx h
  · have hfilter : l.filter (fun a => a ≠ x) = l :=
      List.filter_eq_self.mpr (fun a ha => by
        simp only [ne_eq, decide_eq_true_eq]
        exact fun hax => hx (hax ▸ ha))
    constructor
    · simp only [toggleArchetype, List.contains_eq_any_beq]
      simp [hx, List.mem_filter, hfilter]
      exact fun ha hax => hx (hax ▸ ha)
    · intro _
      simp only [toggleArchetype, List.contains_eq_any_beq]
      simp [hx, hfilter]
      exact fun a ha hax => hx (hax ▸ ha)

/-- C7 witness for the amended claim: the double toggle of an unselected
archetype on a concrete selection preserves membership and restores the list
exactly. -/
theorem toggleArchetype_twice_set_witness :
    (Archetype.CunningVillain ∈ (toggleArchetype (toggleArchetype cfgTwo
        Archetype.CunningVillain) Archetype.CunningVillain).archetypes ↔
      Archetype.CunningVillain ∈ cfgTwo.archetypes) ∧
    toggleArchetype (toggleArchetype cfgTwo Archetype.CunningVillain)
        Archetype.CunningVillain = cfgTwo :=
  ⟨(toggleArchetype_twice_set cfgTwo Archetype.CunningVillain Archetype.CunningVillain).1,
   (toggleArchetype_twice_set cfgTwo Archetype.CunningVillain Archetype.CunningVillain).2
     (by decide)⟩

/-- C8: for any in-range subtitle index, either time field, and any raw input
string, `updateSubtitleTime` is total (it is a function, so it cannot throw)
and the stored field is never NaN: an input whose parse is NaN is coerced to
0, and an input parsing to a finite number is stored as parsed. -/
theorem updateSubtitleTime_never_nan (m : AppModel) (scene : MovieScene)
    (idx : Nat) (f : TimeField) (value : String)
    (hs : m.sceneInfo = some scene) (hidx : idx < (scene.subtitles.getD []).length) :
    ∃ sub : Subtitle,
      (((updateSubtitleTime m idx f value).sceneInfo.bind MovieScene.subtitles).getD [])[idx]?
        = some sub ∧
      subtitleField sub f
        = (if (jsParseFloat value).isNaN then JSNum.num 0 else jsParseFloat value) ∧
      subtitleField sub f ≠ JSNum.nan ∧
      (jsParseFloat value = JSNum.nan → subtitleField sub f = JSNum.num 0) ∧
      (∀ q : ℚ, jsParseFloat value = JSNum.num q → subtitleField sub f = JSNum.num q) := by
  obtain ⟨s, hget⟩ : ∃ s, (scene.subtitles.getD [])[idx]? = some s :=
    ⟨_, List.getElem?_eq_getElem hidx⟩
  refine ⟨setSubtitleField s f
    (if (jsParseFloat value).isNaN then JSNum.num 0 else jsParseFloat value), ?_, ?_, ?_, ?_, ?_⟩
  · simp only [updateSubtitleTime, hs, hget, Option.bind_some]
    simp [List.getElem?_set_self hidx]
  · exact subtitleField_set s f _
  · rw [subtitleField_set]
    exact coerced_not_nan (jsParseFloat value)
  · intro hnan
    rw [subtitleField_set, hnan]
    rfl
  · intro q hq
    rw [subtitleField_set, hq]
    rfl

/-- C8 witness: the non-numeric input `"abc"` on a concrete one-subtitle
scene coerces the start time to 0. -/
theorem updateSubtitleTime_never_nan_witness :
    ∃ sub : Subtitle,
      (((updateSubtitleTime modelStoryboard 0 TimeField.startTime "abc").sceneInfo.bind
          MovieScene.subtitles).getD [])[0]? = some sub ∧
      subtitleField sub TimeField.startTime
        = (if (jsParseFloat "abc").isNaN then JSNum.num 0 else jsParseFloat "abc") ∧
      subtitleField sub TimeField.startTime ≠ JSNum.nan ∧
      (jsParseFloat "abc" = JSNum.nan → subtitleField sub TimeField.startTime = JSNum.num 0) ∧
      (∀ q : ℚ, jsParseFloat "abc" = JSNum.num q →
        subtitleField sub TimeField.startTime = JSNum.num q) :=
  updateSubtitleTime_never_nan modelStoryboard sceneEx 0 TimeField.startTime "abc"
    rfl (by decide)

/-- C9: from any phase, `reset` moves the phase to UPLOAD and clears the
video reference, the scene, the uploaded PDF payload, the error, and the
video-loaded flag. -/
theorem reset_clears_project_state (m : AppModel) :
    (reset m).state = AppState.UPLOAD ∧
    (reset m).videoUrl = none ∧
    (reset m).sceneInfo = none ∧
    (reset m).pdfBase64 = none ∧
    (reset m).videoLoaded = false ∧
    (reset m).error = none := by
  simp [reset]

/-- C10: `reset` leaves the whole `GenerationConfig` — genre, mood, camera,
subtitle flag and archetype selection — exactly as it was. -/
theorem reset_preserves_config (m : AppModel) :
    (reset m).config = m.config ∧
    (reset m).config.genre = m.config.genre ∧
    (reset m).config.mood = m.config.mood ∧
    (reset m).config.camera = m.config.camera ∧
    (reset m).config.includeSubtitles = m.config.includeSubtitles ∧
    (reset m).config.archetypes = m.config.archetypes := by
  simp [reset]
